import Mathlib

/-!
Shallow embedding of the frameboxflow business-management app
(React + Supabase), covering the appointment line-item composition and
save protocol (`src/components/AppointmentDialog.tsx`), the dashboard
statistics aggregator and clients-list filter (`src/pages/Dashboard.tsx`),
and the cash-flow totals (`src/pages/CashFlow.tsx`).

Monetary amounts and quantities are JS numbers in the source; they are
modelled as `Rat`.  Store calls are modelled by passing in each call's
result explicitly (supabase resolves every query to a `{ data, error }`
record; a thrown rejection is modelled as the `Except.error` case of the
argument).  Stateful React code becomes explicit state passing, and the
store mutations attempted by a handler are recorded as an effect trace.
-/

namespace Framebox

/-- Error payload of a failed store call. -/
abbrev StoreError := String

/-- `interface Service` of AppointmentDialog.tsx: a row of the service
catalog fetched from the `services` table. -/
structure Service where
  id : String
  name : String
  base_price : Rat
  duration_hours : Rat
deriving DecidableEq, Repr

/-- `interface AppointmentService` of AppointmentDialog.tsx: one line item
of the appointment being edited (`service` is the cached catalog row). -/
structure AppointmentService where
  service_id : String
  price : Rat
  quantity : Rat
  service : Option Service := none
deriving DecidableEq, Repr

/-- `interface Client` as used by the dialog and the clients page
(id and name are required columns; the rest are nullable). -/
structure Client where
  id : String
  name : String
  email : Option String := none
  phone : Option String := none
  address : Option String := none
  notes : Option String := none
  created_at : String := ""
deriving DecidableEq, Repr

/-- The `formData` state of AppointmentDialog.tsx. -/
structure FormData where
  title : String
  description : String
  client_id : String
  start_date : String
  end_date : String
  location : String
  status : String
deriving DecidableEq, Repr

/-- `addService` (AppointmentDialog.tsx:149-155): append a fresh line item
with empty service id, price 0, quantity 1 to the current list. -/
def addService (appointmentServices : List AppointmentService) :
    List AppointmentService :=
  appointmentServices ++ [{ service_id := "", price := 0, quantity := 1 }]

/-- `removeService` (AppointmentDialog.tsx:157-159):
`appointmentServices.filter((_, i) => i !== index)`. -/
def removeService (appointmentServices : List AppointmentService)
    (index : Nat) : List AppointmentService :=
  ((appointmentServices.enum.filter (fun p => p.1 != index)).map Prod.snd)

/-- The `field`/`value` pairs `updateService` can receive
(`field : keyof AppointmentService`). -/
inductive FieldUpdate where
  | service_id (v : String)
  | price (v : Rat)
  | quantity (v : Rat)
  | serviceRef (v : Option Service)
deriving DecidableEq, Repr

/-- `updated[index] = { ...updated[index], [field]: value }`: overwrite the
named field of a line item. -/
def setField (item : AppointmentService) : FieldUpdate → AppointmentService
  | .service_id v => { item with service_id := v }
  | .price v => { item with price := v }
  | .quantity v => { item with quantity := v }
  | .serviceRef v => { item with service := v }

/-- `updateService` (AppointmentDialog.tsx:161-175): copy the list, replace
the field at `index`; if the field is `service_id` and the new id is found
in the fetched catalog, also overwrite `price` with that service's
`base_price` and cache the service row.  The UI only ever calls this with
an index enumerating the current list, so the out-of-bounds case (which in
JS would create a sparse array) is modelled as a no-op. -/
def updateService (services : List Service)
    (appointmentServices : List AppointmentService) (index : Nat)
    (u : FieldUpdate) : List AppointmentService :=
  match appointmentServices[index]? with
  | none => appointmentServices
  | some old =>
    let item := setField old u
    let item := match u with
      | .service_id v =>
        match services.find? (fun s => s.id == v) with
        | some s => { item with price := s.base_price, service := some s }
        | none => item
      | _ => item
    appointmentServices.set index item

/-- `getTotalValue` (AppointmentDialog.tsx:177-179):
`reduce((total, item) => total + item.price * item.quantity, 0)`. -/
def getTotalValue (appointmentServices : List AppointmentService) : Rat :=
  appointmentServices.foldl (fun total item => total + item.price * item.quantity) 0

/-- One abstract user operation on the line-item list (the three handlers
the dialog exposes). -/
inductive LineItemOp where
  | add
  | remove (index : Nat)
  | update (index : Nat) (u : FieldUpdate)
deriving DecidableEq, Repr

/-- Apply one user operation to the current line-item list (the service
catalog is the dialog's fetched `services` state). -/
def applyOp (services : List Service) (l : List AppointmentService) :
    LineItemOp → List AppointmentService
  | .add => addService l
  | .remove i => removeService l i
  | .update i u => updateService services l i u

/-- Apply a finite sequence of user operations, left to right. -/
def applyOps (services : List Service) (ops : List LineItemOp)
    (l : List AppointmentService) : List AppointmentService :=
  ops.foldl (applyOp services) l

/-! ## The appointment save protocol (`handleSubmit`, AppointmentDialog.tsx:181-276) -/

/-- The `appointmentData` object built at the top of `handleSubmit`
(`client_id: formData.client_id || null`). -/
structure AppointmentData where
  title : String
  description : String
  client_id : Option String
  start_date : String
  end_date : String
  location : String
  status : String
deriving DecidableEq, Repr

/-- A row of the `servicesData` array inserted into `appointment_services`. -/
structure ServiceRow where
  appointment_id : String
  service_id : String
  price : Rat
  quantity : Rat
deriving DecidableEq, Repr

/-- The `transactionData` object inserted into `transactions`. -/
structure TransactionRow where
  type : String
  amount : Rat
  description : String := ""
  client_id : Option String := none
  transaction_date : String := ""
deriving DecidableEq, Repr

/-- `format(new Date(s), "yyyy-MM-dd")` applied to a `datetime-local`
string `"yyyy-MM-ddTHH:mm"`: the date portion, i.e. the first ten
characters. -/
def datePart (s : String) : String := s.take 10

/-- Results the store hands back to `handleSubmit`, one per call site.
`Except.error` models a failed call (`error` non-null at the call sites
that destructure it; the delete call's result is returned but the source
never destructures it). -/
structure StoreResults where
  updateAppointment : Except StoreError Unit
  insertAppointment : Except StoreError String
  deleteServices : Except StoreError Unit
  insertServices : Except StoreError Unit
  insertTransaction : Except StoreError Unit

/-- One store mutation attempted by `handleSubmit`, in program order. -/
inductive Effect where
  | updateAppointment (id : String) (d : AppointmentData)
  | insertAppointment (d : AppointmentData)
  | deleteServices (appointment_id : String)
  | insertServices (rows : List ServiceRow)
  | insertTransaction (t : TransactionRow)
deriving DecidableEq, Repr

/-- Outcome of one run of `handleSubmit`: the trace of attempted store
mutations, whether the success toast was shown (`false` = the catch block
showed the failure toast), and whether the swallowed transaction-insert
error was logged at AppointmentDialog.tsx:254. -/
structure SubmitResult where
  effects : List Effect
  success : Bool
  transactionErrorLogged : Bool
deriving DecidableEq, Repr

/-- `appointmentData` construction (AppointmentDialog.tsx:186-189). -/
def mkAppointmentData (formData : FormData) : AppointmentData :=
  { title := formData.title
    description := formData.description
    client_id := if formData.client_id = "" then none else some formData.client_id
    start_date := formData.start_date
    end_date := formData.end_date
    location := formData.location
    status := formData.status }

/-- The conditional income-transaction step (AppointmentDialog.tsx:236-257):
runs only when `formData.status === "completed" && appointmentServices.length > 0`;
its insert error is logged, never rethrown. -/
def finishTransaction (formData : FormData)
    (appointmentServices : List AppointmentService) (clients : List Client)
    (store : StoreResults) (eff : List Effect) : SubmitResult :=
  if formData.status = "completed" ∧ 0 < appointmentServices.length then
    let totalValue := getTotalValue appointmentServices
    let client := clients.find? (fun c => c.id == formData.client_id)
    let transactionData : TransactionRow :=
      { type := "income"
        amount := totalValue
        description := "Receita do agendamento: " ++ formData.title ++
          (match client with | some c => " - " ++ c.name | none => "")
        client_id := if formData.client_id = "" then none else some formData.client_id
        transaction_date := datePart formData.start_date }
    let eff := eff ++ [.insertTransaction transactionData]
    match store.insertTransaction with
    | .error _ => { effects := eff, success := true, transactionErrorLogged := true }
    | .ok _ => { effects := eff, success := true, transactionErrorLogged := false }
  else
    { effects := eff, success := true, transactionErrorLogged := false }

/-- The line-item re-insert step (AppointmentDialog.tsx:220-234): when the
current list is non-empty, insert all rows and rethrow on error; then fall
through to the transaction step. -/
def insertServicesStep (appointmentId : String) (formData : FormData)
    (appointmentServices : List AppointmentService) (clients : List Client)
    (store : StoreResults) (eff : List Effect) : SubmitResult :=
  if 0 < appointmentServices.length then
    let servicesData := appointmentServices.map (fun service =>
      { appointment_id := appointmentId
        service_id := service.service_id
        price := service.price
        quantity := service.quantity : ServiceRow })
    let eff := eff ++ [.insertServices servicesData]
    match store.insertServices with
    | .error _ => { effects := eff, success := false, transactionErrorLogged := false }
    | .ok _ => finishTransaction formData appointmentServices clients store eff
  else
    finishTransaction formData appointmentServices clients store eff

/-- `handleSubmit` (AppointmentDialog.tsx:181-276).  `editing` is
`appointment?.id`: on edit, update the row (rethrow on error) then delete
the existing line items without inspecting the delete's result; on create,
insert the row (rethrow on error) and take the new id.  Then re-insert the
line items and run the transaction side effect.  Any rethrown error lands
in the catch block: failure toast, no further store calls. -/
def handleSubmit (editing : Option String) (formData : FormData)
    (appointmentServices : List AppointmentService) (clients : List Client)
    (store : StoreResults) : SubmitResult :=
  let appointmentData := mkAppointmentData formData
  match editing with
  | some apptId =>
    match store.updateAppointment with
    | .error _ =>
      { effects := [.updateAppointment apptId appointmentData]
        success := false, transactionErrorLogged := false }
    | .ok _ =>
      insertServicesStep apptId formData appointmentServices clients store
        [.updateAppointment apptId appointmentData, .deleteServices apptId]
  | none =>
    match store.insertAppointment with
    | .error _ =>
      { effects := [.insertAppointment appointmentData]
        success := false, transactionErrorLogged := false }
    | .ok newId =>
      insertServicesStep newId formData appointmentServices clients store
        [.insertAppointment appointmentData]

/-- The transactions actually inserted during a run: the payloads of the
`insertTransaction` effects in the trace. -/
def insertedTransactions (r : SubmitResult) : List TransactionRow :=
  r.effects.filterMap (fun e =>
    match e with
    | .insertTransaction t => some t
    | _ => none)

/-! ## The dashboard aggregator (`fetchDashboardStats`, Dashboard.tsx:33-93)

Supabase resolves each query to a record carrying `data`/`count` and
`error`; on a failed query `data`/`count` are null and `error` is set.
Dashboard.tsx destructures only `count`/`data` and never reads `error`.
A rejected promise (an exception at an `await`) is the `Except.error`
case of the corresponding argument and lands in the catch block. -/

/-- A resolved supabase head-count query: `{ count, error }`. -/
structure CountResponse where
  count : Option Nat
  error : Option StoreError := none
deriving DecidableEq, Repr

/-- A resolved supabase data query over transactions: `{ data, error }`. -/
structure DataResponse where
  data : Option (List TransactionRow)
  error : Option StoreError := none
deriving DecidableEq, Repr

/-- `interface DashboardStats` (Dashboard.tsx:9-16). -/
structure DashboardStats where
  totalClients : Nat
  monthlyIncome : Rat
  monthlyExpense : Rat
  yearlyIncome : Rat
  upcomingAppointments : Nat
  monthlyBalance : Rat
deriving DecidableEq, Repr

/-- Outcome of one run of `fetchDashboardStats`: `newStats = none` means
`setStats` was never reached (the run aborted into the catch block);
`errorLogged` is the `console.error` at Dashboard.tsx:89. -/
structure FetchOutcome where
  newStats : Option DashboardStats
  errorLogged : Bool
deriving DecidableEq, Repr

/-- `monthlyTransactions?.filter(t => t.type === "income").reduce((sum, t) => sum + Number(t.amount), 0) || 0`
(Dashboard.tsx:69-71). -/
def monthlyIncomeCalc (monthlyTransactions : Option (List TransactionRow)) : Rat :=
  match monthlyTransactions with
  | some l => (l.filter (fun t => t.type == "income")).foldl (fun sum t => sum + t.amount) 0
  | none => 0

/-- Dashboard.tsx:73-75, the expense counterpart. -/
def monthlyExpenseCalc (monthlyTransactions : Option (List TransactionRow)) : Rat :=
  match monthlyTransactions with
  | some l => (l.filter (fun t => t.type == "expense")).foldl (fun sum t => sum + t.amount) 0
  | none => 0

/-- `yearlyTransactions?.reduce((sum, t) => sum + Number(t.amount), 0) || 0`
(Dashboard.tsx:77-78); the query itself already filters `type = income`. -/
def yearlyIncomeCalc (yearlyTransactions : Option (List TransactionRow)) : Rat :=
  match yearlyTransactions with
  | some l => l.foldl (fun sum t => sum + t.amount) 0
  | none => 0

/-- `fetchDashboardStats` (Dashboard.tsx:33-93): four sequential awaited
queries (clients count, transactions of the month, income transactions of
the year, upcoming scheduled-appointments count), then one `setStats` with
the reduced record.  No query's `error` field is ever inspected; only a
rejected await reaches the catch block. -/
def fetchDashboardStats (clientsQ : Except StoreError CountResponse)
    (monthlyQ : Except StoreError DataResponse)
    (yearlyQ : Except StoreError DataResponse)
    (appointmentsQ : Except StoreError CountResponse) : FetchOutcome :=
  match clientsQ with
  | .error _ => { newStats := none, errorLogged := true }
  | .ok clientsRes =>
    match monthlyQ with
    | .error _ => { newStats := none, errorLogged := true }
    | .ok monthlyRes =>
      match yearlyQ with
      | .error _ => { newStats := none, errorLogged := true }
      | .ok yearlyRes =>
        match appointmentsQ with
        | .error _ => { newStats := none, errorLogged := true }
        | .ok appointmentsRes =>
          let monthlyIncome := monthlyIncomeCalc monthlyRes.data
          let monthlyExpense := monthlyExpenseCalc monthlyRes.data
          let yearlyIncome := yearlyIncomeCalc yearlyRes.data
          { newStats := some
              { totalClients := clientsRes.count.getD 0
                monthlyIncome := monthlyIncome
                monthlyExpense := monthlyExpense
                yearlyIncome := yearlyIncome
                upcomingAppointments := appointmentsRes.count.getD 0
                monthlyBalance := monthlyIncome - monthlyExpense }
            errorLogged := false }

/-! ## The clients-list filter (`filteredClients`, Dashboard.tsx:416-420) -/

/-- `pat` is a prefix of `s`, over character lists. -/
def charListStartsWith : List Char → List Char → Bool
  | _, [] => true
  | [], _ :: _ => false
  | c :: cs, p :: ps => c == p && charListStartsWith cs ps

/-- `pat` occurs as a contiguous run inside `s`, over character lists. -/
def charListIncludes : List Char → List Char → Bool
  | [], pat => pat.isEmpty
  | c :: cs, pat => charListStartsWith (c :: cs) pat || charListIncludes cs pat

/-- JS `String.includes`: `pat` occurs as a contiguous substring of `s`
(the empty pattern always matches). -/
def strIncludes (s pat : String) : Bool :=
  charListIncludes s.data pat.data

/-- JS `String.toLowerCase` (over the ASCII range relevant here). -/
def lowerStr (s : String) : String :=
  String.mk (s.data.map Char.toLower)

/-- The filter predicate of Dashboard.tsx:416-420: name and email are
compared lowercased, phone is compared as-is
(`client.phone?.includes(searchTerm)`). -/
def clientMatches (searchTerm : String) (client : Client) : Bool :=
  strIncludes (lowerStr client.name) (lowerStr searchTerm) ||
  (match client.email with
   | some e => strIncludes (lowerStr e) (lowerStr searchTerm)
   | none => false) ||
  (match client.phone with
   | some p => strIncludes p searchTerm
   | none => false)

/-- `filteredClients` (Dashboard.tsx:416-420). -/
def filteredClients (clients : List Client) (searchTerm : String) : List Client :=
  clients.filter (clientMatches searchTerm)

/-- Modelled from the spec's words for claim comparison: the claimed
filter predicate, a case-insensitive substring match over all three
searched text fields, phone included. -/
def specClientMatches (searchTerm : String) (client : Client) : Bool :=
  strIncludes (lowerStr client.name) (lowerStr searchTerm) ||
  (match client.email with
   | some e => strIncludes (lowerStr e) (lowerStr searchTerm)
   | none => false) ||
  (match client.phone with
   | some p => strIncludes (lowerStr p) (lowerStr searchTerm)
   | none => false)

/-! ## Cash-flow totals (CashFlow.tsx:222-230) -/

/-- `totalIncome` (CashFlow.tsx:222-224). -/
def totalIncome (transactions : List TransactionRow) : Rat :=
  (transactions.filter (fun t => t.type == "income")).foldl
    (fun sum t => sum + t.amount) 0

/-- `totalExpense` (CashFlow.tsx:226-228). -/
def totalExpense (transactions : List TransactionRow) : Rat :=
  (transactions.filter (fun t => t.type == "expense")).foldl
    (fun sum t => sum + t.amount) 0

/-- `balance` (CashFlow.tsx:230). -/
def balance (transactions : List TransactionRow) : Rat :=
  totalIncome transactions - totalExpense transactions

/-- The mathematical income sum over a transaction list: what the claims
call "the sum of income amounts". -/
def incomeSumSpec (transactions : List TransactionRow) : Rat :=
  ((transactions.filter (fun t => t.type == "income")).map
    (fun t => t.amount)).sum

/-- The mathematical expense sum over a transaction list. -/
def expenseSumSpec (transactions : List TransactionRow) : Rat :=
  ((transactions.filter (fun t => t.type == "expense")).map
    (fun t => t.amount)).sum

/-! ## Helper lemmas -/

/-- The `reduce`-style left fold of `price × quantity` equals the
accumulator plus the mathematical sum. -/
theorem foldl_price_mul_quantity (l : List AppointmentService) (a : Rat) :
    l.foldl (fun total item => total + item.price * item.quantity) a =
      a + (l.map (fun item => item.price * item.quantity)).sum := by
  induction l generalizing a with
  | nil => simp
  | cons x xs ih => simp [ih]; ring

/-- `getTotalValue` computes the mathematical sum of `price × quantity`. -/
theorem getTotalValue_eq_sum (l : List AppointmentService) :
    getTotalValue l = (l.map (fun item => item.price * item.quantity)).sum := by
  simpa [getTotalValue] using foldl_price_mul_quantity l 0

/-- The `reduce`-style left fold of transaction amounts equals the
accumulator plus the mathematical sum. -/
theorem foldl_amount (l : List TransactionRow) (a : Rat) :
    l.foldl (fun sum t => sum + t.amount) a =
      a + (l.map (fun t => t.amount)).sum := by
  induction l generalizing a with
  | nil => simp
  | cons x xs ih => simp [ih]; ring

/-- The cash-flow income fold equals the mathematical income sum. -/
theorem totalIncome_eq_sum (transactions : List TransactionRow) :
    totalIncome transactions = incomeSumSpec transactions := by
  simpa [totalIncome, incomeSumSpec] using
    foldl_amount (transactions.filter (fun t => t.type == "income")) 0

/-- The cash-flow expense fold equals the mathematical expense sum. -/
theorem totalExpense_eq_sum (transactions : List TransactionRow) :
    totalExpense transactions = expenseSumSpec transactions := by
  simpa [totalExpense, expenseSumSpec] using
    foldl_amount (transactions.filter (fun t => t.type == "expense")) 0

end Framebox

open Framebox

/-! ## The claims -/

/-- Claim C4: for every starting line-item list and every finite sequence
of add / remove / update operations, `getTotalValue` of the resulting list
equals the sum over all its line items of price × quantity, and is 0 for
the empty list. -/
theorem c4_totalValue_invariant (services : List Service)
    (init : List AppointmentService) (ops : List LineItemOp) :
    getTotalValue (applyOps services ops init) =
      ((applyOps services ops init).map
        (fun item => item.price * item.quantity)).sum ∧
    getTotalValue ([] : List AppointmentService) = 0 :=
  ⟨getTotalValue_eq_sum _, rfl⟩

/-- Claim C5: `addService` appends exactly one new line item at the end —
empty service reference, quantity 1, price 0 — and every existing line
item is left unchanged in place. -/
theorem c5_addService_appends (l : List AppointmentService) :
    (addService l).length = l.length + 1 ∧
    (addService l).take l.length = l ∧
    (addService l)[l.length]? =
      some { service_id := "", price := 0, quantity := 1, service := none } := by
  refine ⟨by simp [addService], ?_, ?_⟩
  · simp [addService, List.take_left]
  · simp [addService, List.getElem?_concat_length]

/-- A price-only update rewrites the item in place, changing nothing but
the `price` field. -/
theorem updateService_price_eq_set (services : List Service)
    (l : List AppointmentService) (i : Nat) (item : AppointmentService)
    (p : Rat) (h : l[i]? = some item) :
    updateService services l i (.price p) =
      l.set i { item with price := p } := by
  simp [updateService, h, setField]

/-- Claim C6: selecting a catalog service `s` for line item `i` sets the
item's price to `s.base_price` and caches `s` as the item's service
reference; a subsequent price edit on that item changes only the price and
leaves the cached service reference (and everything else) unchanged. -/
theorem c6_service_selection_sets_price_and_caches
    (services : List Service) (l : List AppointmentService) (i : Nat)
    (old : AppointmentService) (sid : String) (s : Service) (p : Rat)
    (hold : l[i]? = some old)
    (hfind : services.find? (fun t => t.id == sid) = some s) :
    (updateService services l i (.service_id sid))[i]? =
      some { old with
              service_id := sid
              price := s.base_price
              service := some s } ∧
    (updateService services (updateService services l i (.service_id sid)) i
        (.price p))[i]? =
      some { old with service_id := sid, price := p, service := some s } := by
  obtain ⟨hlt, -⟩ := List.getElem?_eq_some_iff.mp hold
  have h1 : updateService services l i (.service_id sid) =
      l.set i { old with
                 service_id := sid
                 price := s.base_price
                 service := some s } := by
    simp [updateService, hold, hfind, setField]
  have hget1 : (updateService services l i (.service_id sid))[i]? =
      some { old with
              service_id := sid
              price := s.base_price
              service := some s } := by
    rw [h1]
    exact List.getElem?_set_self hlt
  refine ⟨hget1, ?_⟩
  have hlt1 : i < (updateService services l i (.service_id sid)).length := by
    rw [h1, List.length_set]; exact hlt
  rw [updateService_price_eq_set services _ i _ p hget1]
  exact List.getElem?_set_self hlt1

/-- The concrete catalog row used by the witnesses below (the spec's
example scenario uses a service "Ensaio Individual" with base price 350). -/
def ensaioService : Service :=
  { id := "s1", name := "Ensaio", base_price := 350, duration_hours := 2 }

/-- A fresh concrete line item, as `addService` creates it. -/
def blankItem : AppointmentService :=
  { service_id := "", price := 0, quantity := 1 }

/-- Applies `c6_service_selection_sets_price_and_caches` at a concrete
catalog, list and index. -/
theorem c6_service_selection_witness :
    (updateService [ensaioService] [blankItem] 0 (.service_id "s1"))[0]? =
      some { blankItem with
              service_id := "s1"
              price := ensaioService.base_price
              service := some ensaioService } ∧
    (updateService [ensaioService]
        (updateService [ensaioService] [blankItem] 0 (.service_id "s1")) 0
        (.price 100))[0]? =
      some { blankItem with
              service_id := "s1"
              price := 100
              service := some ensaioService } :=
  c6_service_selection_sets_price_and_caches [ensaioService] [blankItem] 0
    blankItem "s1" ensaioService 100 (by decide) (by decide)

/-- Claim C10: selecting a service id that does not match any catalog
service sets only the `service_id` field of the line item; its price,
quantity and cached service display fields are left unchanged, and the
list keeps its length. -/
theorem c10_unknown_service_sets_only_id
    (services : List Service) (l : List AppointmentService) (i : Nat)
    (old : AppointmentService) (sid : String)
    (hold : l[i]? = some old)
    (hfind : services.find? (fun t => t.id == sid) = none) :
    (updateService services l i (.service_id sid))[i]? =
      some { old with service_id := sid } ∧
    (updateService services l i (.service_id sid)).length = l.length := by
  obtain ⟨hlt, -⟩ := List.getElem?_eq_some_iff.mp hold
  have h1 : updateService services l i (.service_id sid) =
      l.set i { old with service_id := sid } := by
    simp [updateService, hold, hfind, setField]
  rw [h1]
  exact ⟨List.getElem?_set_self hlt, List.length_set l i _⟩

/-- The concrete pre-existing line item used by the C10 witness. -/
def pricedItem : AppointmentService :=
  { service_id := "", price := 7, quantity := 3 }

/-- Applies `c10_unknown_service_sets_only_id` at a concrete catalog, list
and index. -/
theorem c10_unknown_service_witness :
    (updateService [ensaioService] [pricedItem] 0
        (.service_id "zzz"))[0]? =
      some { pricedItem with service_id := "zzz" } ∧
    (updateService [ensaioService] [pricedItem] 0
        (.service_id "zzz")).length = [pricedItem].length :=
  c10_unknown_service_sets_only_id [ensaioService] [pricedItem] 0
    pricedItem "zzz" (by decide) (by decide)

/-- Claim C7: for every transaction list, the computed balance is the sum
of income amounts minus the sum of expense amounts: the dashboard stats
record satisfies monthlyIncome = income sum, monthlyExpense = expense sum
and monthlyBalance = monthlyIncome − monthlyExpense, and the cash-flow
page's balance equals totalIncome − totalExpense, which is that same
difference of sums. -/
theorem c7_balance_is_income_minus_expense (cc ac : CountResponse)
    (ts ys : List TransactionRow) :
    ((fetchDashboardStats (.ok cc) (.ok { data := some ts })
        (.ok { data := some ys }) (.ok ac)).newStats.map
      (fun st => (st.monthlyIncome, st.monthlyExpense, st.monthlyBalance))) =
      some (incomeSumSpec ts, expenseSumSpec ts,
        incomeSumSpec ts - expenseSumSpec ts) ∧
    balance ts = totalIncome ts - totalExpense ts ∧
    balance ts = incomeSumSpec ts - expenseSumSpec ts := by
  have hinc : monthlyIncomeCalc (some ts) = incomeSumSpec ts := by
    simpa [monthlyIncomeCalc, incomeSumSpec] using
      foldl_amount (ts.filter (fun t => t.type == "income")) 0
  have hexp : monthlyExpenseCalc (some ts) = expenseSumSpec ts := by
    simpa [monthlyExpenseCalc, expenseSumSpec] using
      foldl_amount (ts.filter (fun t => t.type == "expense")) 0
  refine ⟨?_, rfl, ?_⟩
  · simp [fetchDashboardStats, hinc, hexp]
  · rw [balance, totalIncome_eq_sum, totalExpense_eq_sum]

/-- The income transaction `handleSubmit` synthesizes for a given form,
line-item list and client catalog (AppointmentDialog.tsx:241-247). -/
def expectedTransaction (formData : FormData)
    (appointmentServices : List AppointmentService)
    (clients : List Client) : TransactionRow :=
  { type := "income"
    amount := getTotalValue appointmentServices
    description := "Receita do agendamento: " ++ formData.title ++
      (match clients.find? (fun c => c.id == formData.client_id) with
       | some c => " - " ++ c.name
       | none => "")
    client_id := if formData.client_id = "" then none
      else some formData.client_id
    transaction_date := datePart formData.start_date }

/-- Claim C2: on submit (with the appointment upsert and the line-item
insert succeeding), exactly one income transaction is synthesized when the
submitted status is "completed" and the line-item list is non-empty — with
amount `getTotalValue`, client_id copied from the form and
transaction_date the date portion of the start date — and none otherwise. -/
theorem c2_completed_submit_synthesizes_income_transaction
    (editing : Option String) (newId : String) (formData : FormData)
    (appointmentServices : List AppointmentService) (clients : List Client)
    (store : StoreResults)
    (hup : store.updateAppointment = .ok ())
    (hins : store.insertAppointment = .ok newId)
    (hsvc : store.insertServices = .ok ()) :
    insertedTransactions
        (handleSubmit editing formData appointmentServices clients store) =
      if formData.status = "completed" ∧ 0 < appointmentServices.length then
        [expectedTransaction formData appointmentServices clients]
      else [] := by
  have hmain : ∀ (apptId : String) (eff : List Effect),
      eff.filterMap (fun e => match e with
        | .insertTransaction t => some t
        | _ => none) = [] →
      insertedTransactions (insertServicesStep apptId formData
          appointmentServices clients store eff) =
        (if formData.status = "completed" ∧ 0 < appointmentServices.length
         then [expectedTransaction formData appointmentServices clients]
         else []) := by
    intro apptId eff heff
    by_cases hlen : 0 < appointmentServices.length <;>
      by_cases hstat : formData.status = "completed" <;>
        cases htx : store.insertTransaction <;>
          simp [insertServicesStep, finishTransaction, expectedTransaction,
            hsvc, hlen, hstat, htx, insertedTransactions,
            List.filterMap_append, heff]
  cases editing with
  | none =>
    have h := hmain newId [.insertAppointment (mkAppointmentData formData)] rfl
    simpa [handleSubmit, hins] using h
  | some apptId =>
    have h := hmain apptId
      [.updateAppointment apptId (mkAppointmentData formData),
       .deleteServices apptId] rfl
    simpa [handleSubmit, hup] using h

/-- A concrete completed-status form: the spec's example scenario
(appointment "Ensaio Individual" on 2025-01-10, no client selected). -/
def completedForm : FormData :=
  { title := "Ensaio Individual"
    description := ""
    client_id := ""
    start_date := "2025-01-10T10:00"
    end_date := "2025-01-10T12:00"
    location := ""
    status := "completed" }

/-- A store where every call succeeds. -/
def allOkStore : StoreResults :=
  { updateAppointment := .ok ()
    insertAppointment := .ok "a1"
    deleteServices := .ok ()
    insertServices := .ok ()
    insertTransaction := .ok () }

/-- Applies `c2_completed_submit_synthesizes_income_transaction` to a
concrete completed appointment with one line item. -/
theorem c2_completed_submit_witness :
    insertedTransactions
        (handleSubmit none completedForm [pricedItem] [] allOkStore) =
      if completedForm.status = "completed" ∧ 0 < [pricedItem].length then
        [expectedTransaction completedForm [pricedItem] []]
      else [] :=
  c2_completed_submit_synthesizes_income_transaction none "a1" completedForm
    [pricedItem] [] allOkStore rfl rfl rfl

/-- Claim C3: when the synthesized transaction's insert fails (all earlier
steps having succeeded, status "completed", non-empty line items), the
error is only logged: the submit still reports success, and the trace ends
at the failed insert — the already-persisted appointment and line items
are not followed by any rollback operation. -/
theorem c3_transaction_insert_failure_swallowed
    (editing : Option String) (newId err : String) (formData : FormData)
    (appointmentServices : List AppointmentService) (clients : List Client)
    (store : StoreResults)
    (hup : store.updateAppointment = .ok ())
    (hins : store.insertAppointment = .ok newId)
    (hsvc : store.insertServices = .ok ())
    (hstat : formData.status = "completed")
    (hlen : 0 < appointmentServices.length)
    (htx : store.insertTransaction = .error err) :
    handleSubmit editing formData appointmentServices clients store =
      { effects :=
          (match editing with
           | some apptId =>
             [.updateAppointment apptId (mkAppointmentData formData),
              .deleteServices apptId]
           | none => [.insertAppointment (mkAppointmentData formData)]) ++
          [.insertServices (appointmentServices.map (fun service =>
             { appointment_id := editing.getD newId
               service_id := service.service_id
               price := service.price
               quantity := service.quantity : ServiceRow })),
           .insertTransaction
             (expectedTransaction formData appointmentServices clients)]
        success := true
        transactionErrorLogged := true } := by
  cases editing <;>
    simp [handleSubmit, hup, hins, insertServicesStep, hlen, hsvc,
      finishTransaction, hstat, htx, expectedTransaction, Option.getD]

/-- The all-ok store except that the transaction insert fails. -/
def txnFailStore : StoreResults :=
  { allOkStore with insertTransaction := .error "db down" }

/-- Applies `c3_transaction_insert_failure_swallowed` to a concrete
completed appointment whose transaction insert fails. -/
theorem c3_transaction_failure_witness :
    handleSubmit none completedForm [pricedItem] [] txnFailStore =
      { effects :=
          [.insertAppointment (mkAppointmentData completedForm)] ++
          [.insertServices [{ appointment_id := "a1"
                              service_id := ""
                              price := 7
                              quantity := 3 }],
           .insertTransaction
             (expectedTransaction completedForm [pricedItem] [])]
        success := true
        transactionErrorLogged := true } := by
  rw [c3_transaction_insert_failure_swallowed none "a1" "db down"
    completedForm [pricedItem] [] txnFailStore rfl rfl rfl rfl
    (by decide) rfl]
  rfl

/-- Claim C9: in the edit-save protocol the delete of the existing line
items is never inspected: the whole submit outcome is the same whatever
that delete returns, the save still proceeds to re-insert the current
line-item list, and is reported successful. -/
theorem c9_delete_result_never_inspected
    (apptId : String) (formData : FormData)
    (appointmentServices : List AppointmentService) (clients : List Client)
    (store : StoreResults) (d1 d2 : Except StoreError Unit)
    (hup : store.updateAppointment = .ok ())
    (hsvc : store.insertServices = .ok ())
    (hlen : 0 < appointmentServices.length) :
    (handleSubmit (some apptId) formData appointmentServices clients
        { store with deleteServices := d1 } =
      handleSubmit (some apptId) formData appointmentServices clients
        { store with deleteServices := d2 }) ∧
    (handleSubmit (some apptId) formData appointmentServices clients
        { store with deleteServices := d1 }).success = true ∧
    Effect.deleteServices apptId ∈
      (handleSubmit (some apptId) formData appointmentServices clients
        { store with deleteServices := d1 }).effects ∧
    Effect.insertServices (appointmentServices.map (fun service =>
        { appointment_id := apptId
          service_id := service.service_id
          price := service.price
          quantity := service.quantity : ServiceRow })) ∈
      (handleSubmit (some apptId) formData appointmentServices clients
        { store with deleteServices := d1 }).effects := by
  refine ⟨rfl, ?_, ?_, ?_⟩ <;>
    by_cases hstat : formData.status = "completed" <;>
      cases htx : store.insertTransaction <;>
        simp [handleSubmit, hup, insertServicesStep, hlen, hsvc,
          finishTransaction, hstat, htx]

/-- Applies `c9_delete_result_never_inspected` at a concrete edit-save
whose line-item delete fails while a rerun's delete succeeds. -/
theorem c9_delete_result_witness :
    (handleSubmit (some "a1") completedForm [pricedItem] []
        { txnFailStore with deleteServices := Except.error "delete failed" } =
      handleSubmit (some "a1") completedForm [pricedItem] []
        { txnFailStore with deleteServices := Except.ok () }) ∧
    (handleSubmit (some "a1") completedForm [pricedItem] []
        { txnFailStore with
            deleteServices := Except.error "delete failed" }).success = true ∧
    Effect.deleteServices "a1" ∈
      (handleSubmit (some "a1") completedForm [pricedItem] []
        { txnFailStore with
            deleteServices := Except.error "delete failed" }).effects ∧
    Effect.insertServices ([pricedItem].map (fun service =>
        { appointment_id := "a1"
          service_id := service.service_id
          price := service.price
          quantity := service.quantity : ServiceRow })) ∈
      (handleSubmit (some "a1") completedForm [pricedItem] []
        { txnFailStore with
            deleteServices := Except.error "delete failed" }).effects :=
  c9_delete_result_never_inspected "a1" completedForm [pricedItem] []
    txnFailStore (Except.error "delete failed") (Except.ok ())
    rfl rfl (by decide)

/-- Claim C1 (counterexample): a dashboard run where the
monthly-transactions query fails in band (supabase resolves it with
`error` set and `data` null — the failure convention every other page of
this codebase checks with `if (error) throw error`) while the clients
query succeeds with one client.  The stats record is still replaced:
`totalClients` is updated from the successful query, the failed query's
fields silently default to 0, and nothing is logged — contradicting
"aborts as a whole, stats left unchanged, failure logged". -/
theorem c1_query_failure_counterexample :
    fetchDashboardStats (.ok { count := some 1 })
        (.ok { data := none, error := some "Failed to fetch" })
        (.ok { data := some [] }) (.ok { count := some 0 }) =
      { newStats := some
          { totalClients := 1
            monthlyIncome := 0
            monthlyExpense := 0
            yearlyIncome := 0
            upcomingAppointments := 0
            monthlyBalance := 0 }
        errorLogged := false } := by
  simp [fetchDashboardStats, monthlyIncomeCalc, monthlyExpenseCalc,
    yearlyIncomeCalc]

/-- Claim C1 (amended): a store-query failure reported in band (supabase's
error-result convention) does not abort the dashboard computation: the
stats record is still replaced wholesale, the failed query's fields
default to zero, fields fed by the successful queries are updated, and
nothing is logged; only a thrown rejection at an await aborts with the
stats left unchanged and the failure logged.  In either case the query is
not retried. -/
theorem c1_amended_failure_handling (cc ac : CountResponse) (e : StoreError)
    (ys : List TransactionRow) (e2 : StoreError)
    (yq : Except StoreError DataResponse)
    (aq : Except StoreError CountResponse) :
    (fetchDashboardStats (.ok cc) (.ok { data := none, error := some e })
        (.ok { data := some ys }) (.ok ac) =
      { newStats := some
          { totalClients := cc.count.getD 0
            monthlyIncome := 0
            monthlyExpense := 0
            yearlyIncome := yearlyIncomeCalc (some ys)
            upcomingAppointments := ac.count.getD 0
            monthlyBalance := 0 }
        errorLogged := false }) ∧
    fetchDashboardStats (.ok cc) (.error e2) yq aq =
      { newStats := none, errorLogged := true } := by
  constructor
  · simp [fetchDashboardStats, monthlyIncomeCalc, monthlyExpenseCalc]
  · rfl

/-- The Ana Silva client of the spec's example search scenario. -/
def anaClient : Client := { id := "c1", name := "Ana Silva" }

/-- A client whose phone differs from the search term only in letter
case. -/
def phoneClient : Client := { id := "c2", name := "Bob", phone := some "ABC" }

/-- Claim C8 (counterexample): the claimed iff — a client appears in the
filtered list exactly when the term is a case-insensitive substring of
name, email or phone — fails for the client named "Bob" with phone "ABC"
under the term "abc": the term is a case-insensitive substring of the
phone, yet the code's filter (which matches phone case-sensitively) drops
the client. -/
theorem c8_filter_counterexample :
    ¬ (phoneClient ∈ filteredClients [phoneClient] "abc" ↔
        phoneClient ∈ [phoneClient] ∧
          (strIncludes (lowerStr phoneClient.name) (lowerStr "abc") = true ∨
           (∃ e, phoneClient.email = some e ∧
             strIncludes (lowerStr e) (lowerStr "abc") = true) ∨
           (∃ p, phoneClient.phone = some p ∧
             strIncludes (lowerStr p) (lowerStr "abc") = true))) := by
  intro h
  have hm : phoneClient ∈ filteredClients [phoneClient] "abc" :=
    h.mpr ⟨List.mem_singleton_self _,
      Or.inr (Or.inr ⟨"ABC", rfl, by decide⟩)⟩
  have hempty : filteredClients [phoneClient] "abc" = [] := by decide
  rw [hempty] at hm
  exact List.not_mem_nil _ hm

/-- Claim C8 (amended): a client appears in the filtered list iff the term
is a case-insensitive substring of its name or email, or a case-sensitive
substring of its phone; in particular the lowercase term "ana" matches a
client named "Ana Silva". -/
theorem c8_filter_membership_amended (clients : List Client)
    (searchTerm : String) (c : Client) :
    (c ∈ filteredClients clients searchTerm ↔
      c ∈ clients ∧
        (strIncludes (lowerStr c.name) (lowerStr searchTerm) = true ∨
         (∃ e, c.email = some e ∧
           strIncludes (lowerStr e) (lowerStr searchTerm) = true) ∨
         (∃ p, c.phone = some p ∧ strIncludes p searchTerm = true))) ∧
    filteredClients [anaClient] "ana" = [anaClient] := by
  constructor
  · simp only [filteredClients, List.mem_filter]
    apply and_congr_right
    intro _
    obtain ⟨id, name, email, phone, address, notes, created⟩ := c
    cases email <;> cases phone <;>
      simp [clientMatches, Bool.or_eq_true, or_assoc]
  · decide

